import Mathlib

/-!
Shallow embedding of the SUTT API gateway authentication subsystem
(src/main.py, src/schemas.py): JWT issuance and decoding, bcrypt password
hashing, the user document store, and the auth request handlers.
Times and durations are integer seconds; bcrypt randomness (gensalt) is an
explicit salt argument. The document store module (database.py) is not in
src/, so its two operations are modelled from the spec as noted on their
doc comments.
-/

namespace SUTT

/-- Payload of a JWT as used by main.py: create_access_token is only ever
called with a dict holding a single "sub" entry, so a payload is the
optional subject claim plus the expiry stamped at issuance (seconds since
epoch). -/
structure Claims where
  sub : Option String
  exp : Int
  deriving DecidableEq

/-- A JWT as observed by PyJWT: either a well-formed token signed under
some secret, or a string that does not parse or verify structurally as a
JWT at all. -/
inductive JwtToken where
  | signed (payload : Claims) (secret : String)
  | malformed (raw : String)
  deriving DecidableEq

/-- PyJWT error classes relevant to main.py: ExpiredSignatureError is a
subclass of InvalidTokenError, and the except clauses in get_current_user
catch the expired case first, so modelling decode with the two disjoint
outcomes is faithful. -/
inductive JwtError where
  | expiredSignature
  | invalidToken
  deriving DecidableEq

/-- JWT_SECRET = os.getenv with the insecure default; the environment is
not modelled, so the default stands for the process-wide secret. -/
def JWT_SECRET : String := "dev-secret"

def JWT_ALG : String := "HS256"

def ACCESS_TOKEN_EXPIRE_MINUTES : Int := 60 * 24

/-- jwt.encode: sign the payload under the given secret. -/
def jwtEncode (payload : Claims) (secret : String) : JwtToken :=
  .signed payload secret

/-- jwt.decode with the current time passed explicitly: a malformed token
or a wrong-key signature fails with InvalidTokenError during signature
verification, before any claim validation; only a verified token has its
exp claim checked, failing with ExpiredSignatureError when exp is at or
before now (PyJWT validates exp <= now with zero leeway). -/
def jwtDecode (token : JwtToken) (secret : String) (now : Int) :
    Except JwtError Claims :=
  match token with
  | .malformed _ => .error .invalidToken
  | .signed payload sigSecret =>
    if sigSecret ≠ secret then .error .invalidToken
    else if payload.exp ≤ now then .error .expiredSignature
    else .ok payload

/-- create_access_token: data is always a single "sub" entry; the expiry is
now plus expires_delta when that is a truthy timedelta (the Python `or`
falls back both on None and on timedelta zero), else now plus
ACCESS_TOKEN_EXPIRE_MINUTES minutes; the result is signed under
JWT_SECRET. -/
def create_access_token (sub : Option String) (expires_delta : Option Int)
    (now : Int) : JwtToken :=
  let delta : Int :=
    match expires_delta with
    | none => ACCESS_TOKEN_EXPIRE_MINUTES * 60
    | some d => if d = 0 then ACCESS_TOKEN_EXPIRE_MINUTES * 60 else d
  jwtEncode { sub := sub, exp := now + delta } JWT_SECRET

/-- A stored password_hash string: either a well-formed bcrypt digest,
idealised as the hashed plaintext together with its salt, or any other
string (wrong format or version, including the empty string that
doc.get substitutes for an absent field). -/
inductive HashStr where
  | bcrypt (pw : String) (salt : Nat)
  | other (raw : String)
  deriving DecidableEq

/-- An uncaught Python exception value. -/
inductive PyErr where
  | valueError (msg : String)
  deriving DecidableEq

/-- Outcome of a request handler: an HTTPException carrying status code and
detail, or a Python exception escaping the handler uncaught. -/
inductive HErr where
  | http (status : Nat) (detail : String)
  | uncaught (e : PyErr)
  deriving DecidableEq

/-- bcrypt.hashpw applied to bcrypt.gensalt(): the salt argument stands for
the fresh randomness drawn by gensalt on each call. -/
def hashpw (password : String) (salt : Nat) : HashStr :=
  .bcrypt password salt

/-- bcrypt.checkpw: re-hashes the candidate under the salt embedded in the
digest and compares, idealised as plaintext equality (collisions ignored);
a digest that does not parse as a bcrypt string makes the underlying
hashpw call raise ValueError Invalid salt, which checkpw does not catch. -/
def checkpw (password : String) (digest : HashStr) : Except PyErr Bool :=
  match digest with
  | .bcrypt pw _ => .ok (password == pw)
  | .other _ => .error (.valueError "Invalid salt")

/-- A document of the user collection as stored: the schemas.User fields
plus the store-assigned id. -/
structure UserDoc where
  oid : Nat
  name : String
  email : String
  language_pref : Option String
  password_hash : Option HashStr
  created_at : Option Int
  deriving DecidableEq

/-- Modelled from the spec: database.py is not under src/. get_documents on
the user collection with an email equality filter is findByEmail of
section 4.3 (exact, case-sensitive match over stored records), truncated
to the given limit. -/
def get_documents_user (store : List UserDoc) (email : String)
    (limit : Nat) : List UserDoc :=
  (store.filter (fun d => d.email == email)).take limit

/-- Modelled from the spec: database.py is not under src/. create_document
inserts the record and returns the store-assigned unique id (section 4.3
create); ids are modelled as insertion indices. -/
def create_document_user (store : List UserDoc) (doc : UserDoc) :
    List UserDoc × Nat :=
  (store ++ [{ doc with oid := store.length }], store.length)

/-- schemas.User as a response value: pydantic fields not passed at the
construction site take their declared defaults (id None, language_pref
"en", password_hash None, created_at None). -/
structure User where
  id : Option String
  name : String
  email : String
  language_pref : Option String
  password_hash : Option HashStr
  created_at : Option Int
  deriving DecidableEq

structure AuthRegisterRequest where
  name : String
  email : String
  password : String
  deriving DecidableEq

structure AuthRegisterResponse where
  user_id : String
  email : String
  name : String
  deriving DecidableEq

/-- schemas.Token: the login response wrapping the issued token. -/
structure Token where
  access_token : JwtToken
  token_type : String := "bearer"
  deriving DecidableEq

/-- register handler: pre-check the email for an existing record, hash the
password with a fresh salt, build the User record (id and created_at
unset, language_pref defaulting to "en") and insert it. The salt argument
stands for the randomness of bcrypt.gensalt(). On the duplicate branch
no insertion happens and the store is left as it was. -/
def register (store : List UserDoc) (req : AuthRegisterRequest)
    (salt : Nat) : Except HErr (List UserDoc × AuthRegisterResponse) :=
  match get_documents_user store req.email 1 with
  | _ :: _ => .error (.http 400 "Email already registered")
  | [] =>
    let password_hash := hashpw req.password salt
    let user : UserDoc :=
      { oid := 0, name := req.name, email := req.email,
        language_pref := some "en", password_hash := some password_hash,
        created_at := none }
    let res := create_document_user store user
    .ok (res.1,
      { user_id := toString res.2, email := req.email, name := req.name })

/-- login handler: look the form username up in the user store; a missing
user and a failed password check raise the same 400 with the same detail;
checkpw is applied to doc.get of password_hash with empty-string default,
and any exception it raises escapes the handler (there is no try block);
on success a token is issued for the stored email. -/
def login (store : List UserDoc) (username password : String)
    (now : Int) : Except HErr Token :=
  match get_documents_user store username 1 with
  | [] => .error (.http 400 "Incorrect email or password")
  | doc :: _ =>
    match checkpw password (doc.password_hash.getD (.other "")) with
    | .error e => .error (.uncaught e)
    | .ok false => .error (.http 400 "Incorrect email or password")
    | .ok true =>
      .ok { access_token := create_access_token (some doc.email) none now }

/-- get_current_user dependency: decode the bearer token, require a sub
claim, look the subject up in the user store, and rebuild the User
response without passing the stored password_hash. The except clauses map
ExpiredSignatureError to 401 Token expired and the remaining
InvalidTokenError cases to 401 Invalid token; the HTTPExceptions raised
inside the try block are not jwt errors and propagate unchanged. -/
def get_current_user (store : List UserDoc) (token : JwtToken)
    (now : Int) : Except HErr User :=
  match jwtDecode token JWT_SECRET now with
  | .error .expiredSignature => .error (.http 401 "Token expired")
  | .error .invalidToken => .error (.http 401 "Invalid token")
  | .ok payload =>
    match payload.sub with
    | none => .error (.http 401 "Invalid token")
    | some email =>
      match get_documents_user store email 1 with
      | [] => .error (.http 401 "User not found")
      | doc :: _ =>
        .ok { id := some (toString doc.oid), name := doc.name,
              email := doc.email, language_pref := doc.language_pref,
              password_hash := none, created_at := doc.created_at }

/-- Observation on the token model: does the signature verify against the
process secret. -/
def sigValid : JwtToken → Bool
  | .signed _ secret => secret == JWT_SECRET
  | .malformed _ => false

/-- Observation on the token model: is the token malformed. -/
def isMalformed : JwtToken → Bool
  | .signed _ _ => false
  | .malformed _ => true

/-- Observation on the token model: the embedded sub claim (none for a
malformed token). -/
def tokenSub : JwtToken → Option String
  | .signed payload _ => payload.sub
  | .malformed _ => none

/-- Observation on the token model: the embedded expiry (irrelevant and
zero for a malformed token). -/
def tokenExp : JwtToken → Int
  | .signed payload _ => payload.exp
  | .malformed _ => 0

/-- A document of the place collection: only the fields itinerary_generate
reads (ratings are floats in the source, modelled as rationals). -/
structure PlaceDoc where
  oid : Nat
  name : String
  rating : Option Rat
  deriving DecidableEq

/-- schemas.Itinerary as stored, plus the store-assigned id; dates are
modelled as day ordinals. -/
structure ItineraryDoc where
  oid : Nat
  user_id : String
  places : List String
  start_date : Int
  end_date : Int
  score : Option Rat
  deriving DecidableEq

/-- schemas.ItineraryGenerateRequest: the schema places no non-emptiness
constraint on dates; preferences is an arbitrary dict, unread by the
handler. -/
structure ItineraryGenerateRequest where
  user_id : String
  dates : List Int
  preferences : List (String × String)
  deriving DecidableEq

structure ItineraryGenerateResponse where
  itinerary_id : String
  user_id : String
  places : List String
  start_date : Int
  end_date : Int
  score : Rat
  deriving DecidableEq

/-- Python min over a list: ValueError on an empty sequence. -/
def listMin (xs : List Int) : Except PyErr Int :=
  match xs with
  | [] => .error (.valueError "min() arg is an empty sequence")
  | x :: rest => .ok (rest.foldl min x)

/-- Python max over a list: ValueError on an empty sequence. -/
def listMax (xs : List Int) : Except PyErr Int :=
  match xs with
  | [] => .error (.valueError "max() arg is an empty sequence")
  | x :: rest => .ok (rest.foldl max x)

/-- Modelled from the spec: database.py is not under src/. get_documents on
the place collection with an empty filter returns stored records up to the
limit. -/
def get_documents_place (store : List PlaceDoc) (limit : Nat) :
    List PlaceDoc :=
  store.take limit

/-- Modelled from the spec: database.py is not under src/. create_document
for the itinerary collection, as for users. -/
def create_document_itinerary (store : List ItineraryDoc)
    (doc : ItineraryDoc) : List ItineraryDoc × Nat :=
  (store ++ [{ doc with oid := store.length }], store.length)

/-- itinerary_generate handler, entered after Depends(get_current_user) has
already resolved `user`: sort the fetched places by rating descending
(Python sorted with reverse=True is stable), select the top five ids, then
take min and max of the request dates - Python min and max raise ValueError
on an empty list - and store and return the itinerary. -/
def itinerary_generate (placeStore : List PlaceDoc)
    (itinStore : List ItineraryDoc) (req : ItineraryGenerateRequest)
    (user : User) :
    Except HErr (List ItineraryDoc × ItineraryGenerateResponse) :=
  let places := get_documents_place placeStore 50
  let places_sorted :=
    places.mergeSort (fun a b => (b.rating.getD 0) ≤ (a.rating.getD 0))
  let selected := (places_sorted.take 5).map (fun p => toString p.oid)
  match listMin req.dates with
  | .error e => .error (.uncaught e)
  | .ok start_date =>
    match listMax req.dates with
    | .error e => .error (.uncaught e)
    | .ok end_date =>
      let score : Rat := 1/2 + ((min selected.length 5 : Nat) : Rat) * (1/10)
      let itin : ItineraryDoc :=
        { oid := 0, user_id := user.id.getD "", places := selected,
          start_date := start_date, end_date := end_date,
          score := some score }
      let res := create_document_itinerary itinStore itin
      .ok (res.1,
        { itinerary_id := toString res.2, user_id := user.id.getD "",
          places := selected, start_date := start_date,
          end_date := end_date, score := score })

/-- C1: issuing a token for subject s with the sub claim and immediately
decoding it under the same signing secret yields a payload whose subject
is s, and the session resolver run at once on that token over a store
holding a user with that email resolves a user whose email is the original
subject. -/
theorem C1_issue_then_verify_roundtrip (s : String) (now : Int)
    (d : UserDoc) :
    (∃ payload,
      jwtDecode (create_access_token (some s) none now) JWT_SECRET now
        = .ok payload ∧ payload.sub = some s)
    ∧ (∃ u, get_current_user [{ d with email := s }]
          (create_access_token (some s) none now) now = .ok u
        ∧ u.email = s) := by
  have hne : ¬ (now + ACCESS_TOKEN_EXPIRE_MINUTES * 60 ≤ now) := by
    simp [ACCESS_TOKEN_EXPIRE_MINUTES]
  constructor
  · refine ⟨{ sub := some s, exp := now + ACCESS_TOKEN_EXPIRE_MINUTES * 60 },
      ?_, rfl⟩
    simp [create_access_token, jwtEncode, jwtDecode, hne]
  · refine ⟨{ id := some (toString d.oid), name := d.name, email := s,
              language_pref := d.language_pref, password_hash := none,
              created_at := d.created_at }, ?_, rfl⟩
    simp [create_access_token, jwtEncode, get_current_user, jwtDecode, hne,
      get_documents_user]

/-- C6: a token issued without an explicit expires_delta carries expiry
equal to issuance time plus exactly 24 hours, with
ACCESS_TOKEN_EXPIRE_MINUTES set to 60 * 24 minutes. -/
theorem C6_default_expiry_is_24h (sub : Option String) (now : Int) :
    tokenExp (create_access_token sub none now) = now + 24 * 60 * 60
    ∧ ACCESS_TOKEN_EXPIRE_MINUTES = 60 * 24 := by
  refine ⟨?_, rfl⟩
  simp [create_access_token, jwtEncode, tokenExp, ACCESS_TOKEN_EXPIRE_MINUTES]

/-- C7: verifying p against a fresh hash of p succeeds; two hash calls with
distinct fresh salts yield distinct digests; and a user registered with
password p can then log in with p. -/
theorem C7_hash_verify_salting (p : String) (s1 s2 : Nat) (nm em : String)
    (now : Int) :
    checkpw p (hashpw p s1) = .ok true
    ∧ (s1 ≠ s2 → hashpw p s1 ≠ hashpw p s2)
    ∧ (∃ store2 resp,
        register [] { name := nm, email := em, password := p } s1
          = .ok (store2, resp)
        ∧ login store2 em p now
          = .ok { access_token := create_access_token (some em) none now }) := by
  refine ⟨by simp [checkpw, hashpw], ?_, ?_⟩
  · intro hne
    simp [hashpw]
    exact hne
  · refine ⟨_, _, rfl, ?_⟩
    simp [register, login, get_documents_user, create_document_user,
      checkpw, hashpw]

/-- C7 witness: the hash and verify roundtrip and the salting property at a
concrete password and two concrete distinct salts. -/
theorem C7_hash_verify_salting_witness :
    checkpw "pw123" (hashpw "pw123" 0) = .ok true
    ∧ hashpw "pw123" 0 ≠ hashpw "pw123" 1 :=
  ⟨(C7_hash_verify_salting "pw123" 0 1 "Ann" "ann@x.com" 0).1,
   (C7_hash_verify_salting "pw123" 0 1 "Ann" "ann@x.com" 0).2.1
     (by decide)⟩

/-- C8: whenever the session resolver succeeds, the User it binds to the
request has password_hash unset, although the User model carries the
field. -/
theorem C8_resolved_user_hides_password_hash (store : List UserDoc)
    (tok : JwtToken) (now : Int) (u : User)
    (h : get_current_user store tok now = .ok u) :
    u.password_hash = none := by
  unfold get_current_user at h
  repeat' split at h
  all_goals simp_all
  all_goals simp [← h]

/-- C8 witness: a concrete successful resolution whose bound user hides the
stored digest. -/
theorem C8_resolved_user_hides_password_hash_witness :
    ({ id := some "0", name := "Ann", email := "ann@x.com",
       language_pref := some "en", password_hash := none,
       created_at := none } : User).password_hash = none :=
  C8_resolved_user_hides_password_hash
    [{ oid := 0, name := "Ann", email := "ann@x.com",
       language_pref := some "en",
       password_hash := some (.bcrypt "pw123" 7), created_at := none }]
    (.signed { sub := some "ann@x.com", exp := 100 } JWT_SECRET) 0 _ rfl

/-- C9: an authenticated itinerary request with an empty dates list makes
min raise on an empty sequence, so the handler raises instead of returning
an itinerary. -/
theorem C9_empty_dates_raises (placeStore : List PlaceDoc)
    (itinStore : List ItineraryDoc) (req : ItineraryGenerateRequest)
    (user : User) (h : req.dates = []) :
    itinerary_generate placeStore itinStore req user
      = .error (.uncaught (.valueError "min() arg is an empty sequence")) := by
  simp [itinerary_generate, listMin, h]

/-- C9 witness: a concrete empty-dates request raises. -/
theorem C9_empty_dates_raises_witness :
    itinerary_generate [] []
      { user_id := "u1", dates := [], preferences := [] }
      { id := some "0", name := "Ann", email := "ann@x.com",
        language_pref := some "en", password_hash := none,
        created_at := none }
      = .error (.uncaught (.valueError "min() arg is an empty sequence")) :=
  C9_empty_dates_raises [] [] _ _ rfl

/-- C10: a token whose signature verifies and which is unexpired but whose
payload has no sub claim is rejected with the same generic 401 Invalid
token answer used for malformed tokens. -/
theorem C10_missing_sub_rejected_as_invalid (store : List UserDoc)
    (payload : Claims) (now : Int) (hsub : payload.sub = none)
    (hexp : now < payload.exp) :
    get_current_user store (.signed payload JWT_SECRET) now
      = .error (.http 401 "Invalid token") := by
  have h1 : ¬ (payload.exp ≤ now) := by omega
  simp [get_current_user, jwtDecode, hsub, h1]

/-- C10 witness: a concrete well-signed unexpired token without sub is
answered 401 Invalid token. -/
theorem C10_missing_sub_rejected_as_invalid_witness :
    get_current_user [] (.signed { sub := none, exp := 50 } JWT_SECRET) 0
      = .error (.http 401 "Invalid token") :=
  C10_missing_sub_rejected_as_invalid [] { sub := none, exp := 50 } 0 rfl
    (by norm_num)

/-- C2 counterexample: a token whose signature verifies and which is not
expired but whose payload lacks a sub claim is answered 401 Invalid token
although it is neither malformed nor badly signed, so the invalid error is
not reserved exactly for the malformed or bad-signature cases as the claim
states. -/
theorem C2_counterexample_missing_sub :
    get_current_user [] (.signed { sub := none, exp := 100 } JWT_SECRET) 0
      = .error (.http 401 "Invalid token")
    ∧ isMalformed (.signed { sub := none, exp := 100 } JWT_SECRET) = false
    ∧ sigValid (.signed { sub := none, exp := 100 } JWT_SECRET) = true
    ∧ ¬ ((100 : Int) ≤ 0) := by
  refine ⟨rfl, rfl, ?_, by norm_num⟩
  simp [sigValid]

/-- C2 (amended): the session resolver answers 401 Token expired exactly
when the signature verifies and the embedded expiry has passed, and 401
Invalid token exactly when the token is malformed, its signature does not
verify, or it is valid and unexpired but carries no sub claim; the two
error values are distinct, so the expired case is never reported as
invalid. -/
theorem C2_error_taxonomy (store : List UserDoc) (tok : JwtToken)
    (now : Int) :
    (get_current_user store tok now = .error (.http 401 "Token expired")
      ↔ (sigValid tok = true ∧ tokenExp tok ≤ now))
    ∧ (get_current_user store tok now = .error (.http 401 "Invalid token")
      ↔ (isMalformed tok = true ∨ sigValid tok = false
          ∨ (sigValid tok = true ∧ now < tokenExp tok
              ∧ tokenSub tok = none)))
    ∧ HErr.http 401 "Token expired" ≠ HErr.http 401 "Invalid token" := by
  refine ⟨?_, ?_, by decide⟩
  all_goals cases tok with
  | malformed raw =>
    simp [get_current_user, jwtDecode, sigValid, isMalformed, tokenExp,
      tokenSub]
  | signed payload secret =>
    by_cases hsec : secret = JWT_SECRET
    · subst hsec
      by_cases hexp : payload.exp ≤ now
      · simp [get_current_user, jwtDecode, hexp, sigValid, isMalformed,
          tokenExp, tokenSub]
      · cases hsub : payload.sub with
        | none =>
          simp [get_current_user, jwtDecode, hexp, hsub, sigValid,
            isMalformed, tokenExp, tokenSub] <;> omega
        | some email =>
          cases hq : get_documents_user store email 1 with
          | nil =>
            simp [get_current_user, jwtDecode, hexp, hsub, hq, sigValid,
              isMalformed, tokenExp, tokenSub]
          | cons d rest =>
            simp [get_current_user, jwtDecode, hexp, hsub, hq, sigValid,
              isMalformed, tokenExp, tokenSub]
    · simp [get_current_user, jwtDecode, hsec, sigValid, isMalformed,
        tokenExp, tokenSub]

/-- C2 witness: the amended taxonomy applied at a concrete expired token
with a verifying signature. -/
theorem C2_error_taxonomy_witness :
    get_current_user [] (.signed { sub := some "ann@x.com", exp := 100 }
      JWT_SECRET) 200 = .error (.http 401 "Token expired") :=
  (C2_error_taxonomy []
    (.signed { sub := some "ann@x.com", exp := 100 } JWT_SECRET) 200).1.mpr
    ⟨by simp [sigValid], by norm_num [tokenExp]⟩

/-- C3: at the failing input - a stored user record whose password_hash is
absent, so doc.get substitutes the empty string - bcrypt.checkpw raises
ValueError Invalid salt, and login escapes with that uncaught exception
instead of returning the 400 bad-credentials failure. -/
theorem C3_malformed_digest_crashes_login :
    login [{ oid := 0, name := "Ann", email := "ann@x.com",
             language_pref := some "en", password_hash := none,
             created_at := none }] "ann@x.com" "pw123" 0
      = .error (.uncaught (.valueError "Invalid salt"))
    ∧ checkpw "pw123" (.other "")
      = .error (.valueError "Invalid salt") :=
  ⟨rfl, rfl⟩

/-- C4: registering an email that already has a matching record in the
store fails with 400 Email already registered and returns no updated
store, so no record is created. -/
theorem C4_duplicate_email_rejected (store : List UserDoc)
    (req : AuthRegisterRequest) (salt : Nat) (d : UserDoc)
    (hd : d ∈ store) (he : d.email = req.email) :
    register store req salt
      = .error (.http 400 "Email already registered") := by
  have hmem : d ∈ store.filter (fun x => x.email == req.email) := by
    simp [List.mem_filter, hd, he]
  obtain ⟨a, as, hfl⟩ :
      ∃ a as, store.filter (fun x => x.email == req.email) = a :: as := by
    cases hq : store.filter (fun x => x.email == req.email) with
    | nil => rw [hq] at hmem; cases hmem
    | cons a as => exact ⟨a, as, rfl⟩
  have hget : get_documents_user store req.email 1 = [a] := by
    simp [get_documents_user, hfl]
  simp [register, hget]

/-- C4 witness: a second registration of a concrete already-stored email is
rejected. -/
theorem C4_duplicate_email_rejected_witness :
    register [{ oid := 0, name := "Ann", email := "ann@x.com",
                language_pref := some "en",
                password_hash := some (.bcrypt "pw123" 7),
                created_at := none }]
      { name := "Bob", email := "ann@x.com", password := "hunter2" } 5
      = .error (.http 400 "Email already registered") :=
  C4_duplicate_email_rejected _ _ 5
    { oid := 0, name := "Ann", email := "ann@x.com",
      language_pref := some "en",
      password_hash := some (.bcrypt "pw123" 7), created_at := none }
    (by simp) rfl

/-- C5: a login whose email matches no record and a login whose email
matches a record with a well-formed digest of a different password produce
the identical observable failure, 400 with the same detail string. -/
theorem C5_login_failures_indistinguishable (store : List UserDoc)
    (username pw : String) (now : Int) :
    (get_documents_user store username 1 = [] →
      login store username pw now
        = .error (.http 400 "Incorrect email or password"))
    ∧ (∀ d rest p s, get_documents_user store username 1 = d :: rest →
        d.password_hash = some (HashStr.bcrypt p s) → p ≠ pw →
        login store username pw now
          = .error (.http 400 "Incorrect email or password")) := by
  constructor
  · intro h
    simp [login, h]
  · intro d rest p s hq hph hne
    have hbeq : (pw == p) = false := by
      simp
      exact fun hh => hne hh.symm
    simp [login, hq, hph, checkpw, hbeq]

/-- C5 witness: the two failure shapes at concrete inputs - unknown email,
and known email with wrong password - both answer 400 with the same
detail. -/
theorem C5_login_failures_indistinguishable_witness :
    login [{ oid := 0, name := "Ann", email := "ann@x.com",
             language_pref := some "en",
             password_hash := some (.bcrypt "pw123" 7),
             created_at := none }] "bob@x.com" "pw123" 0
      = .error (.http 400 "Incorrect email or password")
    ∧ login [{ oid := 0, name := "Ann", email := "ann@x.com",
               language_pref := some "en",
               password_hash := some (.bcrypt "pw123" 7),
               created_at := none }] "ann@x.com" "wrongpw" 0
      = .error (.http 400 "Incorrect email or password") :=
  ⟨(C5_login_failures_indistinguishable _ "bob@x.com" "pw123" 0).1 rfl,
   (C5_login_failures_indistinguishable _ "ann@x.com" "wrongpw" 0).2
     { oid := 0, name := "Ann", email := "ann@x.com",
       language_pref := some "en",
       password_hash := some (.bcrypt "pw123" 7), created_at := none }
     [] "pw123" 7 rfl rfl (by decide)⟩

end SUTT
